import Mathlib

/-!
Verification of the search-task execution pipeline of `src/utils/engines.js`
(reverse-image-search browser extension).

The JavaScript module is shallowly embedded: external collaborators
(browser messaging, i18n catalog, the image conversion engine, `fetch`)
become explicit parameters of the functions that use them, emitted
messages become an explicit event list, thrown errors become the
`Except` error channel carrying a JS-style error value (name + message),
and the mutable `storageIds` array is threaded as explicit state.
-/

namespace Engines

/-- A thrown JavaScript error: its `name` and `message` properties.
`initSearch` classifies caught errors by `err.name`. -/
structure JsError where
  name : String
  message : String
  deriving DecidableEq, Repr

/-- `class EngineError extends Error { constructor(message) { super(message); this.name = 'EngineError'; } }` -/
def EngineError (message : String) : JsError :=
  { name := "EngineError", message := message }

/-- JS `Error.prototype.toString()`: `name` when the message is empty,
otherwise `name ++ ": " ++ message`. Used by `console.log(err.toString())`. -/
def JsError.jsToString (e : JsError) : String :=
  if e.message = "" then e.name else e.name ++ ": " ++ e.message

/-- An image record held in transient storage:
`{imageDataUrl, imageBlob, imageFilename, imageType, imageSize}`.
Blob contents are modelled as strings; `imageBlob` is `none` while the
blob has not been materialized (JS `undefined`). -/
structure ImageRecord where
  imageDataUrl : String
  imageBlob : Option String
  imageFilename : String
  imageType : String
  imageSize : Nat
  deriving DecidableEq, Repr

/-- The search specification stored in a task (`task.search`); only
`assetType` is inspected by this module. -/
structure SearchSpec where
  assetType : String
  deriving DecidableEq, Repr

/-- A queued search task as returned by the `storageRequest` for `taskId`:
`{session, search, imageId}`. The session payload is opaque here. -/
structure SearchTask where
  session : String
  search : SearchSpec
  imageId : String
  deriving DecidableEq, Repr

/-- An observable outgoing effect of the module: a `notification`
message (already catalog-resolved, with its `type` field), a
`storageReceipt` message carrying storage keys, the invocation of the
engine search function, or a `console.log`. -/
inductive Event where
  | notification (message : String) (type : String)
  | storageReceipt (storageIds : List String)
  | searchInvoked
  | consoleLog (line : String)
  deriving DecidableEq, Repr

/-- JS truthiness of a possibly-undefined number: `undefined` and `0`
are falsy (`if (maxSize)`). -/
def jsTruthyNat : Option Nat → Bool
  | none => false
  | some n => n ≠ 0

/-- JS truthiness of a possibly-undefined string: `undefined` and the
empty string are falsy (`if (!message)`). -/
def jsTruthyStr : Option String → Bool
  | none => false
  | some s => s ≠ ""

/-- External collaborators of `prepareImageForUpload`:
`getMaxImageUploadSize(engine, {target})` (JS may return `undefined`),
`convertProcessedImage(image, {newType, maxSize, setBlob})` (may yield no
usable result), `getLargeImageMessage(engine, maxSize)` (localized text),
and `dataUrlToBlob(dataUrl)`. -/
structure PrepareEnv where
  getMaxImageUploadSize : String → Option String → Option Nat
  convertProcessedImage : ImageRecord → String → Nat → Bool → Option ImageRecord
  getLargeImageMessage : String → Nat → String
  dataUrlToBlob : String → String

/-- `prepareImageForUpload({image, engine, target, newType = '', setBlob = true})`:
look up the engine's max upload size; if truthy and the image exceeds it,
convert, throwing a typed `EngineError` when conversion yields nothing;
if truthy and the image fits, materialize the blob when `setBlob`;
otherwise return the image as-is. -/
def prepareImageForUpload (env : PrepareEnv) (image : ImageRecord) (engine : String)
    (target : Option String := none) (newType : String := "") (setBlob : Bool := true) :
    Except JsError ImageRecord :=
  let maxSizeOpt := env.getMaxImageUploadSize engine target
  if jsTruthyNat maxSizeOpt then
    let maxSize := maxSizeOpt.getD 0
    if image.imageSize > maxSize then
      match env.convertProcessedImage image newType maxSize setBlob with
      | some converted => .ok converted
      | none => .error (EngineError (env.getLargeImageMessage engine maxSize))
    else
      if setBlob then
        .ok { image with imageBlob := some (env.dataUrlToBlob image.imageDataUrl) }
      else
        .ok image
  else
    .ok image

/-- `showEngineError({message, errorId, engine})`: when `message` is falsy,
resolve it from the localized catalog (`getMessage(errorId, getMessage('engineName_' + engine))`),
then fire the `{id: 'notification', message, type: engine + 'Error'}` event.
`getMessage` is the external `browser.i18n.getMessage` (key, substitutions). -/
def showEngineError (getMessage : String → List String → String)
    (message : Option String) (errorId : Option String) (engine : String) : Event :=
  let msg :=
    if jsTruthyStr message then
      message.getD ""
    else
      getMessage (errorId.getD "") [getMessage ("engineName_" ++ engine) []]
  Event.notification msg (engine ++ "Error")

/-- `sendReceipt(storageIds)`: when the key list is non-empty, snapshot it,
clear the (shared, mutable) list, and fire one `storageReceipt` message with
the snapshot; when empty, do nothing. Returns the list's new state together
with the fired events. -/
def sendReceipt (storageIds : List String) : List String × List Event :=
  if storageIds.length ≠ 0 then
    ([], [Event.storageReceipt storageIds])
  else
    (storageIds, [])

/-- The argument object passed to an engine search function:
`{session, search, image, storageIds}`. -/
structure SearchFnArgs where
  session : String
  search : SearchSpec
  image : ImageRecord
  storageIds : List String

/-- External collaborators of `initSearch`: the i18n catalog, the
storage response for the requested `taskId`, the large-message storage
response for an image id (which may itself throw), the adapter's
collaborators, and the engine search function (which may throw). -/
structure SearchEnv where
  getMessage : String → List String → String
  task : Option SearchTask
  fetchImage : String → Except JsError (Option ImageRecord)
  prepareEnv : PrepareEnv
  searchFn : SearchFnArgs → Except JsError Unit

/-- The `try` block of `initSearch`, entered once the task record is
present: fetch the image; if absent send the receipt and notify "session
expired"; otherwise adapt the image when `assetType === 'image'` and invoke
the engine search function. Returns the block's outcome, the events it
emitted, and the final state of the `storageIds` list. -/
def initSearchTry (env : SearchEnv) (engine taskId : String) (task : SearchTask) :
    Except JsError Unit × List Event × List String :=
  let storageIds := [taskId, task.imageId]
  match env.fetchImage task.imageId with
  | .error e => (.error e, [], storageIds)
  | .ok none =>
    let r := sendReceipt storageIds
    (.ok (), r.2 ++ [showEngineError env.getMessage none (some "error_sessionExpiredEngine") engine], r.1)
  | .ok (some image0) =>
    let prepared : Except JsError ImageRecord :=
      if task.search.assetType = "image" then
        prepareImageForUpload env.prepareEnv image0 engine
      else
        .ok image0
    match prepared with
    | .error e => (.error e, [], storageIds)
    | .ok image =>
      match env.searchFn ⟨task.session, task.search, image, storageIds⟩ with
      | .ok _ => (.ok (), [Event.searchInvoked], storageIds)
      | .error e => (.error e, [Event.searchInvoked], storageIds)

/-- `initSearch(searchFn, engine, taskId)`: request the task; if absent,
notify "session expired" and return successfully. If present, run the
`try` block; on a thrown error send the receipt, classify the error by
`err.name === 'EngineError'` (typed: its message verbatim; otherwise the
generic `error_engine` catalog entry), notify, log, and rethrow. -/
def initSearch (env : SearchEnv) (engine taskId : String) :
    Except JsError Unit × List Event :=
  match env.task with
  | none =>
    (.ok (), [showEngineError env.getMessage none (some "error_sessionExpiredEngine") engine])
  | some task =>
    match initSearchTry env engine taskId task with
    | (.ok _, evs, _) => (.ok (), evs)
    | (.error err, evs, ids) =>
      let r := sendReceipt ids
      let notif :=
        if err.name = "EngineError" then
          showEngineError env.getMessage (some err.message) none engine
        else
          showEngineError env.getMessage none (some "error_engine") engine
      (.error err, evs ++ r.2 ++ [notif, Event.consoleLog err.jsToString])

/-- One item of the Pinterest response's `data` array. -/
structure PinterestItem where
  id : String
  image_large_url : String
  description : String
  deriving DecidableEq, Repr

/-- The parsed JSON body of the Pinterest response: a `status` field
(possibly absent) and a `data` array (possibly absent). -/
structure PinterestBody where
  status : Option String
  data : Option (List PinterestItem)
  deriving DecidableEq, Repr

/-- The outcome of the `fetch` call as `searchPinterest` observes it:
the HTTP status and the result of `rsp.json()` (which rejects on a body
that is not valid JSON). -/
structure FetchResponse where
  status : Nat
  json : Except JsError PinterestBody
  deriving Repr

/-- One normalized search result `{page, image, text}`. -/
structure SearchResult where
  page : String
  image : String
  text : String
  deriving DecidableEq, Repr

/-- `new Error('search failed')`: a plain `Error`, so its `name` is `"Error"`. -/
def searchFailedError : JsError :=
  { name := "Error", message := "search failed" }

/-- The response-handling part of `searchPinterest`: await `rsp.json()`
(its rejection propagates), then require HTTP status 200, body status
`'success'`, and a present non-empty `data` array, else throw
`new Error('search failed')`; on success map each item to
`{page: pin URL from id, image: image_large_url, text: description}`. -/
def searchPinterest (rsp : FetchResponse) : Except JsError (List SearchResult) :=
  match rsp.json with
  | .error e => .error e
  | .ok response =>
    if rsp.status ≠ 200 ∨ response.status ≠ some "success" ∨
        response.data = none ∨ response.data = some [] then
      .error searchFailedError
    else
      .ok ((response.data.getD []).map fun item =>
        { page := "https://pinterest.com/pin/" ++ item.id ++ "/"
          image := item.image_large_url
          text := item.description })

/-- Recognizer for notification events. -/
def Event.isNotification : Event → Bool
  | .notification _ _ => true
  | _ => false

/-- Recognizer for storage-receipt events. -/
def Event.isReceipt : Event → Bool
  | .storageReceipt _ => true
  | _ => false

/-- Recognizer for engine-invocation events. -/
def Event.isSearchInvoked : Event → Bool
  | .searchInvoked => true
  | _ => false

/-- The "session expired" notification as emitted for `engine`. -/
def sessionExpiredNotif (getMessage : String → List String → String) (engine : String) : Event :=
  showEngineError getMessage none (some "error_sessionExpiredEngine") engine

/-- `showEngineError` always produces a notification event. -/
lemma isNotification_showEngineError (gm : String → List String → String)
    (message errorId : Option String) (engine : String) :
    (showEngineError gm message errorId engine).isNotification = true := rfl

/-- The notification classifying a caught error in `initSearch`'s catch block. -/
def catchNotif (gm : String → List String → String) (err : JsError) (engine : String) : Event :=
  if err.name = "EngineError" then
    showEngineError gm (some err.message) none engine
  else
    showEngineError gm none (some "error_engine") engine

/-- Exhaustive case analysis of one `initSearch` run: the task-missing
early return; the image-missing early return (receipt, then "session
expired"); the success path (engine invoked, nothing else emitted); or
the catch path (receipt, classified notification, console log, rethrow),
whose pre-catch events are empty or a lone engine invocation. -/
lemma initSearch_run_cases (env : SearchEnv) (engine taskId : String) :
    (env.task = none ∧
      initSearch env engine taskId =
        (.ok (), [sessionExpiredNotif env.getMessage engine])) ∨
    (∃ task, env.task = some task ∧ env.fetchImage task.imageId = .ok none ∧
      initSearch env engine taskId =
        (.ok (), [Event.storageReceipt [taskId, task.imageId],
                  sessionExpiredNotif env.getMessage engine])) ∨
    (∃ task img0, env.task = some task ∧
      env.fetchImage task.imageId = .ok (some img0) ∧
      (initSearchTry env engine taskId task).1 = .ok () ∧
      initSearch env engine taskId = (.ok (), [Event.searchInvoked])) ∨
    (∃ task err preEvs, env.task = some task ∧
      initSearchTry env engine taskId task = (.error err, preEvs, [taskId, task.imageId]) ∧
      (preEvs = [] ∨ preEvs = [Event.searchInvoked]) ∧
      initSearch env engine taskId =
        (.error err,
         preEvs ++ [Event.storageReceipt [taskId, task.imageId],
                    catchNotif env.getMessage err engine,
                    Event.consoleLog err.jsToString])) := by
  rcases htask : env.task with _ | task
  · exact Or.inl ⟨rfl, by simp [initSearch, htask, sessionExpiredNotif]⟩
  · rcases hfetch : env.fetchImage task.imageId with e | img
    · refine Or.inr (Or.inr (Or.inr ⟨task, e, [], rfl, ?_, Or.inl rfl, ?_⟩))
      · simp [initSearchTry, hfetch]
      · simp [initSearch, htask, initSearchTry, hfetch, sendReceipt, catchNotif]
    · rcases img with _ | img0
      · refine Or.inr (Or.inl ⟨task, rfl, hfetch, ?_⟩)
        simp [initSearch, htask, initSearchTry, hfetch, sendReceipt, sessionExpiredNotif]
      · rcases hprep : (if task.search.assetType = "image" then
            prepareImageForUpload env.prepareEnv img0 engine else .ok img0) with e | image
        · refine Or.inr (Or.inr (Or.inr ⟨task, e, [], rfl, ?_, Or.inl rfl, ?_⟩))
          · simp only [initSearchTry, hfetch, hprep]
          · simp only [initSearch, htask, initSearchTry, hfetch, hprep]
            simp [sendReceipt, catchNotif]
        · rcases hsf : env.searchFn ⟨task.session, task.search, image, [taskId, task.imageId]⟩
            with e | u
          · refine Or.inr (Or.inr (Or.inr
              ⟨task, e, [Event.searchInvoked], rfl, ?_, Or.inr rfl, ?_⟩))
            · simp only [initSearchTry, hfetch, hprep, hsf]
            · simp only [initSearch, htask, initSearchTry, hfetch, hprep, hsf]
              simp [sendReceipt, catchNotif]
          · refine Or.inr (Or.inr (Or.inl ⟨task, img0, rfl, hfetch, ?_, ?_⟩))
            · simp only [initSearchTry, hfetch, hprep, hsf]
            · simp only [initSearch, htask, initSearchTry, hfetch, hprep, hsf]

/-! Concrete fixtures used to witness the theorems below. -/

/-- A concrete i18n catalog: renders the key and its substitutions. -/
def sampleGetMessage : String → List String → String :=
  fun key subs => String.intercalate "|" (key :: subs)

/-- A concrete adapter environment: limit 1000 bytes, and a conversion
engine that always succeeds at exactly the requested size. -/
def samplePrepareEnv : PrepareEnv where
  getMaxImageUploadSize := fun _ _ => some 1000
  convertProcessedImage := fun img _ maxSize _ => some { img with imageSize := maxSize }
  getLargeImageMessage := fun engine maxSize =>
    "Image larger than " ++ toString maxSize ++ " (" ++ engine ++ ")"
  dataUrlToBlob := fun d => "blob(" ++ d ++ ")"

/-- A concrete in-limit image with no materialized blob. -/
def sampleImage : ImageRecord where
  imageDataUrl := "data:image/jpeg;base64,QQ=="
  imageBlob := none
  imageFilename := "photo.jpg"
  imageType := "image/jpeg"
  imageSize := 500

/-- A concrete oversized image (2000 bytes against the 1000-byte limit). -/
def bigImage : ImageRecord where
  imageDataUrl := "data:image/jpeg;base64,QUFB"
  imageBlob := none
  imageFilename := "big.jpg"
  imageType := "image/jpeg"
  imageSize := 2000

/-- A concrete queued task targeting an image asset. -/
def sampleTask : SearchTask where
  session := "s1"
  search := { assetType := "image" }
  imageId := "i1"

/-- C1. For every image whose byte size exceeds the engine's configured
maximum upload size, `prepareImageForUpload` either returns the converted
image produced by the external conversion engine — which, by that engine's
contract of honoring the requested `maxSize`, is at or under the limit and
hence not the oversized input — or throws a typed `EngineError` carrying
the size-specific localized message; it never returns the oversized image
unchanged and never fails silently. -/
theorem prepareImageForUpload_oversize (env : PrepareEnv) (image : ImageRecord)
    (engine : String) (target : Option String) (newType : String) (setBlob : Bool) (m : Nat)
    (hmax : env.getMaxImageUploadSize engine target = some m) (hm : m ≠ 0)
    (hsize : image.imageSize > m)
    (hconv : ∀ out, env.convertProcessedImage image newType m setBlob = some out →
      out.imageSize ≤ m) :
    (∃ out, prepareImageForUpload env image engine target newType setBlob = .ok out ∧
      env.convertProcessedImage image newType m setBlob = some out ∧
      out.imageSize ≤ m ∧ out ≠ image) ∨
    (env.convertProcessedImage image newType m setBlob = none ∧
      prepareImageForUpload env image engine target newType setBlob =
        .error (EngineError (env.getLargeImageMessage engine m))) := by
  rcases hc : env.convertProcessedImage image newType m setBlob with _ | out
  · refine Or.inr ⟨rfl, ?_⟩
    simp [prepareImageForUpload, hmax, jsTruthyNat, hm, hsize, hc]
  · refine Or.inl ⟨out, ?_, rfl, hconv out hc, ?_⟩
    · simp [prepareImageForUpload, hmax, jsTruthyNat, hm, hsize, hc]
    · intro heq
      have hle : out.imageSize ≤ m := hconv out hc
      rw [heq] at hle
      omega

/-- Witness for C1 at the concrete fixtures: the 2000-byte image against
the 1000-byte limit, with a conversion engine that succeeds at 1000. -/
theorem prepareImageForUpload_oversize_witness :
    samplePrepareEnv.getMaxImageUploadSize "pinterest" none = some 1000 ∧
    bigImage.imageSize > 1000 ∧
    ((∃ out, prepareImageForUpload samplePrepareEnv bigImage "pinterest" none "" true = .ok out ∧
        samplePrepareEnv.convertProcessedImage bigImage "" 1000 true = some out ∧
        out.imageSize ≤ 1000 ∧ out ≠ bigImage) ∨
      (samplePrepareEnv.convertProcessedImage bigImage "" 1000 true = none ∧
        prepareImageForUpload samplePrepareEnv bigImage "pinterest" none "" true =
          .error (EngineError (samplePrepareEnv.getLargeImageMessage "pinterest" 1000)))) := by
  refine ⟨rfl, by decide, ?_⟩
  refine prepareImageForUpload_oversize samplePrepareEnv bigImage "pinterest" none "" true 1000
    rfl (by decide) (by decide) ?_
  intro out h
  have h := Option.some.inj h
  rw [← h]

/-- C7. For every image whose byte size is at or under the configured
limit, `prepareImageForUpload` returns the image with its data URL,
filename, type and size unchanged; when `setBlob` is requested the blob
field is materialized from the data URL, otherwise it too is unchanged. -/
theorem prepareImageForUpload_fits (env : PrepareEnv) (image : ImageRecord)
    (engine : String) (target : Option String) (newType : String) (setBlob : Bool) (m : Nat)
    (hmax : env.getMaxImageUploadSize engine target = some m) (hm : m ≠ 0)
    (hsize : image.imageSize ≤ m) :
    ∃ out, prepareImageForUpload env image engine target newType setBlob = .ok out ∧
      out.imageDataUrl = image.imageDataUrl ∧
      out.imageFilename = image.imageFilename ∧
      out.imageType = image.imageType ∧
      out.imageSize = image.imageSize ∧
      out.imageBlob =
        (if setBlob then some (env.dataUrlToBlob image.imageDataUrl) else image.imageBlob) := by
  have hnot : ¬ image.imageSize > m := by omega
  cases setBlob with
  | false =>
    refine ⟨image, ?_, rfl, rfl, rfl, rfl, by simp⟩
    simp [prepareImageForUpload, hmax, jsTruthyNat, hm, hnot]
  | true =>
    refine ⟨{ image with imageBlob := some (env.dataUrlToBlob image.imageDataUrl) },
      ?_, rfl, rfl, rfl, rfl, by simp⟩
    simp [prepareImageForUpload, hmax, jsTruthyNat, hm, hnot]

/-- Witness for C7: the 500-byte image under the 1000-byte limit, with
`setBlob` requested. -/
theorem prepareImageForUpload_fits_witness :
    samplePrepareEnv.getMaxImageUploadSize "pinterest" none = some 1000 ∧
    sampleImage.imageSize ≤ 1000 ∧
    (∃ out, prepareImageForUpload samplePrepareEnv sampleImage "pinterest" none "" true = .ok out ∧
      out.imageDataUrl = sampleImage.imageDataUrl ∧
      out.imageFilename = sampleImage.imageFilename ∧
      out.imageType = sampleImage.imageType ∧
      out.imageSize = sampleImage.imageSize ∧
      out.imageBlob =
        (if true then some (samplePrepareEnv.dataUrlToBlob sampleImage.imageDataUrl)
         else sampleImage.imageBlob)) :=
  ⟨rfl, by decide,
    prepareImageForUpload_fits samplePrepareEnv sampleImage "pinterest" none "" true 1000
      rfl (by decide) (by decide)⟩

/-- An adapter environment with no configured upload limit. -/
def noLimitPrepareEnv : PrepareEnv where
  getMaxImageUploadSize := fun _ _ => none
  convertProcessedImage := fun _ _ _ _ => none
  getLargeImageMessage := fun _ _ => ""
  dataUrlToBlob := fun d => "blob(" ++ d ++ ")"

/-- Counterexample to C8: no limit is configured, `setBlob` is requested
and the image has no blob yet, but `prepareImageForUpload` returns the
record with `imageBlob` still absent — no blob is materialized, contrary
to the claim. -/
theorem prepareImageForUpload_no_limit_counterexample :
    jsTruthyNat (noLimitPrepareEnv.getMaxImageUploadSize "pinterest" none) = false ∧
    sampleImage.imageBlob = none ∧
    prepareImageForUpload noLimitPrepareEnv sampleImage "pinterest" none "" true =
      .ok sampleImage ∧
    (prepareImageForUpload noLimitPrepareEnv sampleImage "pinterest" none "" true ≠
      .ok { sampleImage with
              imageBlob := some (noLimitPrepareEnv.dataUrlToBlob sampleImage.imageDataUrl) }) := by
  refine ⟨rfl, rfl, rfl, ?_⟩
  intro h
  have h := Except.ok.inj h
  have hb := congrArg ImageRecord.imageBlob h
  simp [sampleImage] at hb

/-- C8 as amended: when no maximum upload size is configured (the looked-up
value is JS-falsy), `prepareImageForUpload` returns the image entirely
unchanged; in particular no blob is materialized even when `setBlob` is
requested. -/
theorem prepareImageForUpload_no_limit (env : PrepareEnv) (image : ImageRecord)
    (engine : String) (target : Option String) (newType : String) (setBlob : Bool)
    (h : jsTruthyNat (env.getMaxImageUploadSize engine target) = false) :
    prepareImageForUpload env image engine target newType setBlob = .ok image := by
  simp [prepareImageForUpload, h]

/-- Witness for the amended C8 at the no-limit environment. -/
theorem prepareImageForUpload_no_limit_witness :
    jsTruthyNat (noLimitPrepareEnv.getMaxImageUploadSize "pinterest" none) = false ∧
    prepareImageForUpload noLimitPrepareEnv sampleImage "pinterest" none "" true =
      .ok sampleImage :=
  ⟨rfl, prepareImageForUpload_no_limit noLimitPrepareEnv sampleImage "pinterest" none "" true rfl⟩

/-- C2. Given a response whose body parses, `searchPinterest` returns
results if and only if the HTTP status is 200, the body's status field is
the success value, and the body's data array is present and non-empty;
when any of the three conditions fails it throws the generic
`'search failed'` error, which carries no provider detail. -/
theorem searchPinterest_success_iff (rsp : FetchResponse) (body : PinterestBody)
    (hjson : rsp.json = .ok body) :
    ((∃ rs, searchPinterest rsp = .ok rs) ↔
      (rsp.status = 200 ∧ body.status = some "success" ∧
        ∃ items, body.data = some items ∧ items ≠ [])) ∧
    (¬ (rsp.status = 200 ∧ body.status = some "success" ∧
        ∃ items, body.data = some items ∧ items ≠ []) →
      searchPinterest rsp = .error searchFailedError) := by
  by_cases hC : rsp.status ≠ 200 ∨ body.status ≠ some "success" ∨
      body.data = none ∨ body.data = some []
  · have hres : searchPinterest rsp = .error searchFailedError := by
      simp only [searchPinterest, hjson]
      rw [if_pos hC]
    have hnP : ¬ (rsp.status = 200 ∧ body.status = some "success" ∧
        ∃ items, body.data = some items ∧ items ≠ []) := by
      rintro ⟨h200, hsucc, items, hdata, hne⟩
      rcases hC with h | h | h | h
      · exact h h200
      · exact h hsucc
      · rw [hdata] at h; exact Option.noConfusion h
      · rw [hdata] at h; exact hne (Option.some.inj h)
    refine ⟨⟨?_, fun hP => absurd hP hnP⟩, fun _ => hres⟩
    rintro ⟨rs, hrs⟩
    rw [hres] at hrs
    exact Except.noConfusion hrs
  · push_neg at hC
    obtain ⟨h200, hsucc, hnone, hempty⟩ := hC
    obtain ⟨items, hdata⟩ := Option.ne_none_iff_exists'.mp hnone
    have hne : items ≠ [] := by
      intro h
      rw [h] at hdata
      exact hempty hdata
    have hres : searchPinterest rsp =
        .ok (items.map fun item =>
          { page := "https://pinterest.com/pin/" ++ item.id ++ "/"
            image := item.image_large_url
            text := item.description }) := by
      simp only [searchPinterest, hjson]
      rw [if_neg]
      · rw [hdata]
        rfl
      · push_neg
        exact ⟨h200, hsucc, hnone, hempty⟩
    refine ⟨⟨fun _ => ⟨h200, hsucc, items, hdata, hne⟩, fun _ => ⟨_, hres⟩⟩, fun hnP => ?_⟩
    exact absurd ⟨h200, hsucc, items, hdata, hne⟩ hnP

/-- A concrete Pinterest data item. -/
def sampleItem : PinterestItem where
  id := "1234"
  image_large_url := "https://i.pinimg.com/originals/a.jpg"
  description := "a pin"

/-- A concrete successful Pinterest response body. -/
def sampleBody : PinterestBody where
  status := some "success"
  data := some [sampleItem]

/-- Witness for C2 at a concrete parsed 200 response with one item. -/
theorem searchPinterest_success_iff_witness :
    ((⟨200, .ok sampleBody⟩ : FetchResponse).json = .ok sampleBody) ∧
    ((∃ rs, searchPinterest ⟨200, .ok sampleBody⟩ = .ok rs) ↔
      ((200 : Nat) = 200 ∧ sampleBody.status = some "success" ∧
        ∃ items, sampleBody.data = some items ∧ items ≠ [])) :=
  ⟨rfl, (searchPinterest_success_iff ⟨200, .ok sampleBody⟩ sampleBody rfl).1⟩

/-- C6. On a successful call, the result sequence has the same length and
order as the provider's `data` array, and element `i` has `page` equal to
the fixed pin-URL template applied to the item's `id`, `image` equal to
the item's `image_large_url`, and `text` equal to the item's
`description`. -/
theorem searchPinterest_result_mapping (rsp : FetchResponse) (body : PinterestBody)
    (items : List PinterestItem)
    (hjson : rsp.json = .ok body) (h200 : rsp.status = 200)
    (hsucc : body.status = some "success") (hdata : body.data = some items)
    (hne : items ≠ []) :
    ∃ rs, searchPinterest rsp = .ok rs ∧ rs.length = items.length ∧
      ∀ (i : Nat) (hi : i < rs.length) (hi2 : i < items.length),
        rs.get ⟨i, hi⟩ =
          { page := "https://pinterest.com/pin/" ++ (items.get ⟨i, hi2⟩).id ++ "/"
            image := (items.get ⟨i, hi2⟩).image_large_url
            text := (items.get ⟨i, hi2⟩).description } := by
  have hres : searchPinterest rsp =
      .ok (items.map fun item =>
        { page := "https://pinterest.com/pin/" ++ item.id ++ "/"
          image := item.image_large_url
          text := item.description }) := by
    simp only [searchPinterest, hjson]
    rw [if_neg, hdata]
    · rfl
    · push_neg
      refine ⟨h200, hsucc, by rw [hdata]; exact fun h => Option.noConfusion h, ?_⟩
      rw [hdata]
      intro h
      exact hne (Option.some.inj h)
  refine ⟨_, hres, by simp, ?_⟩
  intro i hi hi2
  simp [List.get_eq_getElem, List.getElem_map]

/-- Witness for C6 at the concrete one-item response. -/
theorem searchPinterest_result_mapping_witness :
    ∃ rs, searchPinterest ⟨200, .ok sampleBody⟩ = .ok rs ∧
      rs.length = [sampleItem].length ∧
      ∀ (i : Nat) (hi : i < rs.length) (hi2 : i < [sampleItem].length),
        rs.get ⟨i, hi⟩ =
          { page := "https://pinterest.com/pin/" ++ ([sampleItem].get ⟨i, hi2⟩).id ++ "/"
            image := ([sampleItem].get ⟨i, hi2⟩).image_large_url
            text := ([sampleItem].get ⟨i, hi2⟩).description } :=
  searchPinterest_result_mapping ⟨200, .ok sampleBody⟩ sampleBody [sampleItem]
    rfl rfl rfl rfl (by decide)

/-- C10. `rsp.json()` is awaited before the status check: a response whose
body does not parse makes `searchPinterest` throw the parse error itself,
whatever the HTTP status; and for a response whose body does parse, the
only error ever thrown is the generic `'search failed'` one. -/
theorem searchPinterest_parse_before_status :
    (∀ (st : Nat) (e : JsError),
      searchPinterest ⟨st, .error e⟩ = .error e) ∧
    (∀ (st : Nat) (body : PinterestBody),
      searchPinterest ⟨st, .ok body⟩ = .error searchFailedError ∨
      ∃ rs, searchPinterest ⟨st, .ok body⟩ = .ok rs) := by
  constructor
  · intro st e
    rfl
  · intro st body
    simp only [searchPinterest]
    split
    · exact Or.inl rfl
    · exact Or.inr ⟨_, rfl⟩

/-! Helper facts about event recognizers, used in the run analyses. -/

@[simp] lemma isNotification_mk (m t : String) :
    (Event.notification m t).isNotification = true := rfl

@[simp] lemma isNotification_receipt (keys : List String) :
    (Event.storageReceipt keys).isNotification = false := rfl

@[simp] lemma isNotification_invoked : Event.searchInvoked.isNotification = false := rfl

@[simp] lemma isNotification_log (s : String) :
    (Event.consoleLog s).isNotification = false := rfl

@[simp] lemma isReceipt_mk (keys : List String) :
    (Event.storageReceipt keys).isReceipt = true := rfl

@[simp] lemma isReceipt_notif (m t : String) :
    (Event.notification m t).isReceipt = false := rfl

@[simp] lemma isReceipt_invoked : Event.searchInvoked.isReceipt = false := rfl

@[simp] lemma isReceipt_log (s : String) : (Event.consoleLog s).isReceipt = false := rfl

@[simp] lemma isSearchInvoked_mk : Event.searchInvoked.isSearchInvoked = true := rfl

@[simp] lemma isSearchInvoked_notif (m t : String) :
    (Event.notification m t).isSearchInvoked = false := rfl

@[simp] lemma isSearchInvoked_receipt (keys : List String) :
    (Event.storageReceipt keys).isSearchInvoked = false := rfl

@[simp] lemma isSearchInvoked_log (s : String) :
    (Event.consoleLog s).isSearchInvoked = false := rfl

@[simp] lemma isNotification_showEngineError₂ (gm : String → List String → String)
    (message errorId : Option String) (engine : String) :
    (showEngineError gm message errorId engine).isNotification = true := rfl

@[simp] lemma isReceipt_showEngineError (gm : String → List String → String)
    (message errorId : Option String) (engine : String) :
    (showEngineError gm message errorId engine).isReceipt = false := rfl

@[simp] lemma isSearchInvoked_showEngineError (gm : String → List String → String)
    (message errorId : Option String) (engine : String) :
    (showEngineError gm message errorId engine).isSearchInvoked = false := rfl

@[simp] lemma isNotification_catchNotif (gm : String → List String → String)
    (err : JsError) (engine : String) :
    (catchNotif gm err engine).isNotification = true := by
  unfold catchNotif
  split <;> rfl

@[simp] lemma isReceipt_catchNotif (gm : String → List String → String)
    (err : JsError) (engine : String) :
    (catchNotif gm err engine).isReceipt = false := by
  unfold catchNotif
  split <;> rfl

@[simp] lemma isSearchInvoked_catchNotif (gm : String → List String → String)
    (err : JsError) (engine : String) :
    (catchNotif gm err engine).isSearchInvoked = false := by
  unfold catchNotif
  split <;> rfl

lemma showEngineError_eq_notification (gm : String → List String → String)
    (message errorId : Option String) (engine : String) :
    ∃ msg, showEngineError gm message errorId engine = Event.notification msg (engine ++ "Error") :=
  ⟨_, rfl⟩

lemma catchNotif_eq_notification (gm : String → List String → String)
    (err : JsError) (engine : String) :
    ∃ msg, catchNotif gm err engine = Event.notification msg (engine ++ "Error") := by
  unfold catchNotif
  split <;> exact ⟨_, rfl⟩

/-- When the image lookup comes back empty, the try block completes
without throwing. -/
lemma initSearchTry_fetch_none_ok (env : SearchEnv) (engine taskId : String)
    (task : SearchTask) (hfetch : env.fetchImage task.imageId = .ok none) :
    (initSearchTry env engine taskId task).1 = .ok () := by
  simp [initSearchTry, hfetch, sendReceipt]

/-- C3. Whenever the task lookup or the image lookup comes back empty,
the run emits exactly one notification — the "session expired" one for
the engine — never invokes the search function, and returns successfully
(no error propagated to the caller). -/
theorem initSearch_missing_record (env : SearchEnv) (engine taskId : String)
    (h : env.task = none ∨
      ∃ task, env.task = some task ∧ env.fetchImage task.imageId = .ok none) :
    (initSearch env engine taskId).1 = .ok () ∧
    (initSearch env engine taskId).2.countP Event.isNotification = 1 ∧
    sessionExpiredNotif env.getMessage engine ∈ (initSearch env engine taskId).2 ∧
    (initSearch env engine taskId).2.countP Event.isSearchInvoked = 0 := by
  rcases initSearch_run_cases env engine taskId with
    ⟨htask, hrun⟩ | ⟨task, htask, hfetch, hrun⟩ |
    ⟨task, img0, htask, hfetch, _, _⟩ | ⟨task, err, preEvs, htask, htry, _, _⟩
  · rw [hrun]
    simp [sessionExpiredNotif]
  · rw [hrun]
    simp [sessionExpiredNotif]
  · rcases h with h | ⟨task₂, htask₂, hfetch₂⟩
    · rw [h] at htask
      exact Option.noConfusion htask
    · rw [htask₂] at htask
      have heq := Option.some.inj htask
      subst heq
      rw [hfetch₂] at hfetch
      exact Option.noConfusion (Except.ok.inj hfetch)
  · rcases h with h | ⟨task₂, htask₂, hfetch₂⟩
    · rw [h] at htask
      exact Option.noConfusion htask
    · rw [htask₂] at htask
      have heq := Option.some.inj htask
      subst heq
      have hok := initSearchTry_fetch_none_ok _ engine taskId _ hfetch₂
      rw [htry] at hok
      simp at hok

/-- An orchestrator environment whose task lookup comes back empty. -/
def c3Env : SearchEnv where
  getMessage := sampleGetMessage
  task := none
  fetchImage := fun _ => .ok none
  prepareEnv := samplePrepareEnv
  searchFn := fun _ => .ok ()

/-- Witness for C3: a run with no stored task for `"t1"`. -/
theorem initSearch_missing_record_witness :
    (initSearch c3Env "pinterest" "t1").1 = .ok () ∧
    (initSearch c3Env "pinterest" "t1").2.countP Event.isNotification = 1 ∧
    sessionExpiredNotif c3Env.getMessage "pinterest" ∈ (initSearch c3Env "pinterest" "t1").2 ∧
    (initSearch c3Env "pinterest" "t1").2.countP Event.isSearchInvoked = 0 :=
  initSearch_missing_record c3Env "pinterest" "t1" (Or.inl rfl)

/-- C5. Every error thrown after the task has been fetched (image fetch,
adaptation, or the engine call) is caught at the orchestrator: the run
sends exactly one receipt (with the task's key set), emits exactly one
notification, logs the error's text, and rethrows the error. An error
named `EngineError` supplies its message verbatim to the notification;
any other error yields only the generic `error_engine` catalog
notification, which does not depend on the error's detail. -/
theorem initSearch_error_path (env : SearchEnv) (engine taskId : String)
    (task : SearchTask) (err : JsError)
    (htask : env.task = some task)
    (herr : (initSearchTry env engine taskId task).1 = .error err) :
    (initSearch env engine taskId).1 = .error err ∧
    (initSearch env engine taskId).2.countP Event.isReceipt = 1 ∧
    Event.storageReceipt [taskId, task.imageId] ∈ (initSearch env engine taskId).2 ∧
    (initSearch env engine taskId).2.countP Event.isNotification = 1 ∧
    (err.name = "EngineError" → err.message ≠ "" →
      Event.notification err.message (engine ++ "Error") ∈ (initSearch env engine taskId).2) ∧
    (err.name ≠ "EngineError" →
      showEngineError env.getMessage none (some "error_engine") engine ∈
        (initSearch env engine taskId).2) ∧
    Event.consoleLog err.jsToString ∈ (initSearch env engine taskId).2 := by
  rcases initSearch_run_cases env engine taskId with
    ⟨htask₂, _⟩ | ⟨task₂, htask₂, hfetch, _⟩ |
    ⟨task₂, img0, htask₂, hfetch, htryOk, _⟩ | ⟨task₂, err₂, preEvs, htask₂, htry, hpre, hrun⟩
  · rw [htask] at htask₂
    exact Option.noConfusion htask₂
  · rw [htask₂] at htask
    have heq := Option.some.inj htask
    subst heq
    have hok := initSearchTry_fetch_none_ok _ engine taskId _ hfetch
    rw [herr] at hok
    exact Except.noConfusion hok
  · rw [htask₂] at htask
    have heq := Option.some.inj htask
    subst heq
    rw [herr] at htryOk
    exact Except.noConfusion htryOk
  · rw [htask₂] at htask
    have heq := Option.some.inj htask
    subst heq
    rw [htry] at herr
    simp only [] at herr
    have herr₂ : err₂ = err := Except.error.inj herr
    subst herr₂
    rw [hrun]
    rcases hpre with hpre | hpre <;> subst hpre
    · refine ⟨rfl, by simp, by simp, by simp, ?_, ?_, by simp⟩
      · intro hname hmsg
        have hcn : catchNotif env.getMessage err₂ engine =
            Event.notification err₂.message (engine ++ "Error") := by
          simp [catchNotif, hname, showEngineError, jsTruthyStr, hmsg]
        rw [← hcn]
        simp
      · intro hname
        have hcn : catchNotif env.getMessage err₂ engine =
            showEngineError env.getMessage none (some "error_engine") engine := by
          simp [catchNotif, hname]
        rw [← hcn]
        simp
    · refine ⟨rfl, by simp, by simp, by simp, ?_, ?_, by simp⟩
      · intro hname hmsg
        have hcn : catchNotif env.getMessage err₂ engine =
            Event.notification err₂.message (engine ++ "Error") := by
          simp [catchNotif, hname, showEngineError, jsTruthyStr, hmsg]
        rw [← hcn]
        simp
      · intro hname
        have hcn : catchNotif env.getMessage err₂ engine =
            showEngineError env.getMessage none (some "error_engine") engine := by
          simp [catchNotif, hname]
        rw [← hcn]
        simp

/-- A network-style failure thrown by the engine call. -/
def typeError : JsError where
  name := "TypeError"
  message := "Failed to fetch"

/-- An orchestrator environment whose engine call throws `typeError`. -/
def c5Env : SearchEnv where
  getMessage := sampleGetMessage
  task := some sampleTask
  fetchImage := fun _ => .ok (some sampleImage)
  prepareEnv := samplePrepareEnv
  searchFn := fun _ => .error typeError

/-- Witness for C5: a run whose engine call throws a generic error. -/
theorem initSearch_error_path_witness :
    (initSearch c5Env "pinterest" "t1").1 = .error typeError ∧
    (initSearch c5Env "pinterest" "t1").2.countP Event.isReceipt = 1 ∧
    Event.storageReceipt ["t1", "i1"] ∈ (initSearch c5Env "pinterest" "t1").2 ∧
    showEngineError c5Env.getMessage none (some "error_engine") "pinterest" ∈
      (initSearch c5Env "pinterest" "t1").2 := by
  have h := initSearch_error_path c5Env "pinterest" "t1" sampleTask typeError rfl rfl
  exact ⟨h.1, h.2.1, h.2.2.1, h.2.2.2.2.2.1 (by decide)⟩

/-- C9. On the success path — task present, image present, engine call
resolves — the orchestrator sends no receipt itself: the run completes
successfully with no `storageReceipt` event. -/
theorem initSearch_success_no_receipt (env : SearchEnv) (engine taskId : String)
    (task : SearchTask) (img0 : ImageRecord)
    (htask : env.task = some task)
    (himg : env.fetchImage task.imageId = .ok (some img0))
    (hok : (initSearchTry env engine taskId task).1 = .ok ()) :
    (initSearch env engine taskId).1 = .ok () ∧
    (initSearch env engine taskId).2.countP Event.isReceipt = 0 := by
  rcases initSearch_run_cases env engine taskId with
    ⟨htask₂, _⟩ | ⟨task₂, htask₂, hfetch, _⟩ |
    ⟨task₂, img₂, htask₂, hfetch, _, hrun⟩ | ⟨task₂, err, preEvs, htask₂, htry, _, _⟩
  · rw [htask] at htask₂
    exact Option.noConfusion htask₂
  · rw [htask₂] at htask
    have heq := Option.some.inj htask
    subst heq
    rw [hfetch] at himg
    exact Option.noConfusion (Except.ok.inj himg)
  · rw [hrun]
    simp
  · rw [htask₂] at htask
    have heq := Option.some.inj htask
    subst heq
    rw [htry] at hok
    simp at hok

/-- An orchestrator environment whose run reaches the engine and succeeds. -/
def c9Env : SearchEnv where
  getMessage := sampleGetMessage
  task := some sampleTask
  fetchImage := fun _ => .ok (some sampleImage)
  prepareEnv := samplePrepareEnv
  searchFn := fun _ => .ok ()

/-- Witness for C9: a fully successful run sends no receipt. -/
theorem initSearch_success_no_receipt_witness :
    (initSearch c9Env "pinterest" "t1").1 = .ok () ∧
    (initSearch c9Env "pinterest" "t1").2.countP Event.isReceipt = 0 :=
  initSearch_success_no_receipt c9Env "pinterest" "t1" sampleTask sampleImage rfl rfl rfl

/-- C4. `sendReceipt` clears the local key set before sending: its state
result is always empty, a non-empty key set fires exactly one
`storageReceipt` message carrying that key set, and a repeated call on
the cleared set sends nothing. Within one `initSearch` run at most one
receipt message is sent, and any receipt sent carries exactly the key set
`[taskId, task.imageId]` of the fetched task. -/
theorem sendReceipt_exactly_once (ids : List String) (env : SearchEnv)
    (engine taskId : String) :
    (sendReceipt ids).1 = [] ∧
    (ids ≠ [] → sendReceipt ids = ([], [Event.storageReceipt ids])) ∧
    (sendReceipt (sendReceipt ids).1).2 = [] ∧
    (initSearch env engine taskId).2.countP Event.isReceipt ≤ 1 ∧
    (∀ keys, Event.storageReceipt keys ∈ (initSearch env engine taskId).2 →
      ∃ task, env.task = some task ∧ keys = [taskId, task.imageId]) := by
  refine ⟨?_, ?_, ?_, ?_, ?_⟩
  · cases ids <;> simp [sendReceipt]
  · intro h
    cases ids with
    | nil => exact absurd rfl h
    | cons a l => simp [sendReceipt]
  · cases ids <;> simp [sendReceipt]
  · rcases initSearch_run_cases env engine taskId with
      ⟨_, hrun⟩ | ⟨task, _, _, hrun⟩ | ⟨task, img0, _, _, _, hrun⟩ |
      ⟨task, err, preEvs, _, _, hpre, hrun⟩
    · rw [hrun]
      simp [sessionExpiredNotif]
    · rw [hrun]
      simp [sessionExpiredNotif]
    · rw [hrun]
      simp
    · rw [hrun]
      rcases hpre with hpre | hpre <;> subst hpre <;> simp
  · intro keys hmem
    rcases initSearch_run_cases env engine taskId with
      ⟨_, hrun⟩ | ⟨task, htask, _, hrun⟩ | ⟨task, img0, _, _, _, hrun⟩ |
      ⟨task, err, preEvs, htask, _, hpre, hrun⟩
    · rw [hrun] at hmem
      obtain ⟨msg, hse⟩ := showEngineError_eq_notification env.getMessage none
        (some "error_sessionExpiredEngine") engine
      rw [sessionExpiredNotif, hse] at hmem
      simp at hmem
    · rw [hrun] at hmem
      obtain ⟨msg, hse⟩ := showEngineError_eq_notification env.getMessage none
        (some "error_sessionExpiredEngine") engine
      rw [sessionExpiredNotif, hse] at hmem
      simp at hmem
      exact ⟨task, htask, hmem⟩
    · rw [hrun] at hmem
      simp at hmem
    · rw [hrun] at hmem
      obtain ⟨msg, hcn⟩ := catchNotif_eq_notification env.getMessage err engine
      rw [hcn] at hmem
      rcases hpre with hpre | hpre <;> subst hpre <;> simp at hmem <;>
        exact ⟨task, htask, hmem⟩

/-- An orchestrator environment whose image lookup comes back empty, so
the receipt is sent on the early-return path. -/
def c4Env : SearchEnv where
  getMessage := sampleGetMessage
  task := some sampleTask
  fetchImage := fun _ => .ok none
  prepareEnv := samplePrepareEnv
  searchFn := fun _ => .ok ()

/-- Witness for C4: a concrete non-empty key set fires one receipt, and
the receipt observed in a concrete run carries `["t1", "i1"]`. -/
theorem sendReceipt_exactly_once_witness :
    sendReceipt ["t1", "i1"] = ([], [Event.storageReceipt ["t1", "i1"]]) ∧
    (∃ task, c4Env.task = some task ∧ ["t1", "i1"] = ["t1", task.imageId]) := by
  constructor
  · exact (sendReceipt_exactly_once ["t1", "i1"] c4Env "pinterest" "t1").2.1 (by decide)
  · refine (sendReceipt_exactly_once ["t1", "i1"] c4Env "pinterest" "t1").2.2.2.2
      ["t1", "i1"] ?_
    have hevs : (initSearch c4Env "pinterest" "t1").2 =
        [Event.storageReceipt ["t1", "i1"],
         sessionExpiredNotif c4Env.getMessage "pinterest"] := rfl
    rw [hevs]
    simp

end Engines
